import Mathlib

/-
Verification of the Chips Commerce backend (`main.py`).

The repository ships a single source file, `main.py`, containing the HTTP
handlers.  The collaborators it imports — the document store (`database.py`
providing `get_documents`, `create_document`, `db`) and the pydantic schemas
(`schemas.py` providing `Product`, `Order`, `OrderItem`) — are not part of the
source tree, so they are modelled from the specification (sections 3 and 6 of
the spec); every such definition carries a doc comment starting with
"Modelled from the spec:".  Monetary amounts are embedded as exact rationals,
and Python's two-argument `round` (banker's rounding) is embedded as
`pyRound2` on rationals.
-/

namespace ChipsApi

/-- Modelled from the spec: the `Product` schema of the missing `schemas.py`
(spec section 3: title, description, price, category, in_stock flag, image_url,
rating, brand, weight_grams). -/
structure Product where
  title : String
  description : String
  price : ℚ
  category : String
  in_stock : Bool
  image_url : String
  rating : ℚ
  brand : String
  weight_grams : ℕ
  deriving DecidableEq, Repr

/-- Modelled from the spec: the `OrderItem` schema of the missing `schemas.py`
(spec section 3: product reference, price, quantity). -/
structure OrderItem where
  product_id : String
  price : ℚ
  quantity : ℕ
  deriving DecidableEq, Repr

/-- Modelled from the spec: the `Order` schema of the missing `schemas.py`
(spec section 3: an ordered collection of OrderItem plus a subtotal field). -/
structure Order where
  items : List OrderItem
  subtotal : ℚ
  deriving DecidableEq, Repr

/-- A document as held by the store: the client-supplied data together with
the store-assigned id. -/
structure Stored (α : Type) where
  id : ℕ
  data : α
  deriving DecidableEq, Repr

/-- Modelled from the spec: the state of the document store (missing
`database.py`), holding the `product` and `order` collections in insertion
order, plus the next id the store will assign. -/
structure Store where
  products : List (Stored Product)
  orders : List (Stored Order)
  next_id : ℕ
  deriving DecidableEq, Repr

/-- Modelled from the spec: the store's read-many operation
`get_documents(collection, filter, limit)` (spec section 6): it returns up to
`limit` records matching the filter, in store (insertion) order. -/
def get_documents {α : Type} (docs : List α) (pred : α → Bool) (limit : ℕ) :
    List α :=
  (docs.filter pred).take limit

/-- Modelled from the spec: `create_document("product", data)` — inserts the
given record verbatim, assigns the next id, and returns the stored document. -/
def create_document_product (s : Store) (p : Product) : Stored Product × Store :=
  let d : Stored Product := ⟨s.next_id, p⟩
  (d, { s with products := s.products ++ [d], next_id := s.next_id + 1 })

/-- Modelled from the spec: `create_document("order", data)` — inserts the
given record verbatim, assigns the next id, and returns the stored document. -/
def create_document_order (s : Store) (o : Order) : Stored Order × Store :=
  let d : Stored Order := ⟨s.next_id, o⟩
  (d, { s with orders := s.orders ++ [d], next_id := s.next_id + 1 })

/-- The category equality filter built by `list_products`: an empty filter
(`none`) matches every document, `some c` matches documents whose category
equals `c`. -/
def matchesCategory : Option String → Stored Product → Bool
  | none, _ => true
  | some c, d => d.data.category == c

/-- Embedding of `list_products` (main.py lines 39-43):
`filter_q = {"category": category} if category else {}` — a Python string is
truthy exactly when it is non-empty and non-None — followed by
`get_documents("product", filter_q, limit=100)`. -/
def list_products (category : Option String) (s : Store) :
    List (Stored Product) :=
  let filter_q : Option String :=
    match category with
    | some c => if c = "" then none else some c
    | none => none
  get_documents s.products (matchesCategory filter_q) 100

/-- Embedding of `create_product` (main.py lines 45-48): insert the submitted
product and return the stored document. -/
def create_product (p : Product) (s : Store) : Stored Product × Store :=
  create_document_product s p

/-- Banker's rounding of a rational to the nearest integer, embedding the
behaviour of Python's built-in `round`: ties go to the even neighbour. -/
def roundHalfEven (q : ℚ) : ℤ :=
  let f : ℤ := ⌊q⌋
  let r : ℚ := q - f
  if r < 1 / 2 then f
  else if 1 / 2 < r then f + 1
  else if f % 2 = 0 then f else f + 1

/-- Embedding of Python's `round(x, 2)` on exact rationals. -/
def pyRound2 (q : ℚ) : ℚ :=
  (roundHalfEven (q * 100) : ℚ) / 100

/-- The subtotal accumulation loop of `create_order` (main.py lines 118-120):
`subtotal = 0.0; for item in order.items: subtotal += item.price * item.quantity`. -/
def orderSubtotal (items : List OrderItem) : ℚ :=
  items.foldl (fun acc it => acc + it.price * (it.quantity : ℚ)) 0

/-- Embedding of `create_order` (main.py lines 111-124): reject an empty items
list with the fixed 400 message; otherwise overwrite the submitted subtotal
with `round(sum(price*quantity), 2)`, insert, and return the stored document.
The handler's error exit leaves the store untouched, so the embedding returns
the result together with the (possibly updated) store. -/
def create_order (o : Order) (s : Store) : Except String (Stored Order) × Store :=
  if o.items = [] then
    (.error "Order must contain at least one item", s)
  else
    let o2 : Order := { o with subtotal := pyRound2 (orderSubtotal o.items) }
    let r := create_document_order s o2
    (.ok r.1, r.2)

/-- The four fixed literal product records of `seed_products`
(main.py lines 57-102), transcribed field by field. -/
def chips : List Product :=
  [ { title := "Classic Salted Potato Chips",
      description := "Crispy, thin-cut potatoes with a perfect salty crunch.",
      price := 2.99,
      category := "potato",
      in_stock := true,
      image_url := "https://images.unsplash.com/photo-1541592106381-b31e9677c0e5?w=800",
      rating := 4.6,
      brand := "CrunchCraft",
      weight_grams := 150 },
    { title := "Spicy Tortilla Chips",
      description := "Stone-ground corn chips dusted with fiery chili and lime.",
      price := 3.49,
      category := "tortilla",
      in_stock := true,
      image_url := "https://images.unsplash.com/photo-1604908176997-4316c288032e?w=800",
      rating := 4.7,
      brand := "FuegoBite",
      weight_grams := 170 },
    { title := "Cheddar Ridges",
      description := "Ridged chips blasted with bold cheddar cheese flavor.",
      price := 3.19,
      category := "potato",
      in_stock := true,
      image_url := "https://images.unsplash.com/photo-1613478223719-3c84c68ffd4a?w=800",
      rating := 4.4,
      brand := "RidgeRush",
      weight_grams := 160 },
    { title := "Sea Salt Kettle Chips",
      description := "Thick-cut kettle chips cooked in small batches for extra crunch.",
      price := 3.99,
      category := "kettle",
      in_stock := true,
      image_url := "https://images.unsplash.com/photo-1585238342028-4bbc3e2f5b42?w=800",
      rating := 4.8,
      brand := "KettleCo",
      weight_grams := 200 } ]

/-- Response of `seed_products`: the inserted count, and the optional
"already seeded" message. -/
structure SeedResult where
  inserted : ℕ
  message : Option String
  deriving DecidableEq, Repr

/-- Embedding of `seed_products` (main.py lines 50-109): fetch at most one
existing product; if none, insert the four fixed records one by one, counting
the insertions; otherwise insert nothing and report zero. -/
def seed_products (s : Store) : SeedResult × Store :=
  let existing := get_documents s.products (fun _ => true) 1
  if existing = [] then
    let r := chips.foldl
      (fun (p : ℕ × Store) c =>
        let q := create_document_product p.2 c
        (p.1 + 1, q.2))
      (0, s)
    (⟨r.1, none⟩, r.2)
  else
    (⟨0, some "Products already seeded"⟩, s)

/-- Modelled from the spec: the behaviour of the store handle `db` from the
missing `database.py` as observed by the `/test` endpoint — its optional
`name` attribute (absent when `hasattr(db, 'name')` is false), and listing
the collection names, which either returns them or raises an exception with
the given message. -/
structure DbHandle where
  name : Option String
  collectionNames : Except String (List String)

/-- The JSON object returned by `test_database` (main.py lines 128-135). -/
structure TestResponse where
  backend : String
  database : String
  database_url : Option String
  database_name : Option String
  connection_status : String
  collections : List String

/-- Embedding of the Python character slice `s[:n]`. -/
def pySlice (n : ℕ) (s : String) : String :=
  ⟨s.data.take n⟩

/-- Embedding of `test_database` (main.py lines 126-159). The store handle is
`none` when `db is None`; a failure of `list_collection_names` is an `error`
value caught by the inner `except`, which stores the message truncated to 50
characters. The final two assignments overwrite the url/name fields from the
`DATABASE_URL` and `DATABASE_NAME` environment variables, passed here as
booleans. -/
def test_database (db : Option DbHandle) (urlSet nameSet : Bool) :
    TestResponse :=
  let r0 : TestResponse :=
    { backend := "✅ Running",
      database := "❌ Not Available",
      database_url := none,
      database_name := none,
      connection_status := "Not Connected",
      collections := [] }
  let r1 : TestResponse :=
    match db with
    | some d =>
      let r : TestResponse :=
        { r0 with
          database := "✅ Available",
          database_url := some "✅ Configured",
          database_name := some (d.name.getD "✅ Connected"),
          connection_status := "Connected" }
      match d.collectionNames with
      | .ok cs =>
        { r with collections := cs.take 10, database := "✅ Connected & Working" }
      | .error e =>
        { r with database := "⚠️  Connected but Error: " ++ pySlice 50 e }
    | none => { r0 with database := "⚠️  Available but not initialized" }
  { r1 with
    database_url := some (if urlSet then "✅ Set" else "❌ Not Set"),
    database_name := some (if nameSet then "✅ Set" else "❌ Not Set") }

/-- The subtotal of the document returned by `create_order`, when it
succeeded. -/
def subtotalOfResult : Except String (Stored Order) → Option ℚ
  | .ok d => some d.data.subtotal
  | .error _ => none

/-- The subtotal of the most recently stored order, if any. -/
def lastOrderSubtotal (s : Store) : Option ℚ :=
  match s.orders.getLast? with
  | some d => some d.data.subtotal
  | none => none

/-- An empty store, as before any request. -/
def store0 : Store := ⟨[], [], 0⟩

/-- A sample product used in concrete instantiations. -/
def tinyProduct : Product := ⟨"t", "", 1, "potato", true, "", 0, "b", 1⟩

/-- A store holding a single product, with id 0 already assigned. -/
def store1 : Store := ⟨[⟨0, tinyProduct⟩], [], 1⟩

/-- A store already holding 100 products, at the read limit of
`list_products`. -/
def bigStore : Store :=
  ⟨(List.range 100).map (fun i => ⟨i, tinyProduct⟩), [], 100⟩

/-- The example order of the spec: two items at 2.99 × 2 and 3.49 × 1. -/
def c5order : Order := ⟨[⟨"p1", 2.99, 2⟩, ⟨"p2", 3.49, 1⟩], 0⟩

/-- A one-item order used in concrete instantiations; the submitted subtotal
is deliberately wrong. -/
def w1order : Order := ⟨[⟨"p", 1, 1⟩], 5⟩

/-- Another one-item order used in concrete instantiations. -/
def w8order : Order := ⟨[⟨"x", 2, 3⟩], 99⟩

/-- Unfolding of `create_order` on an order with at least one item. -/
theorem create_order_of_items_ne_nil (o : Order) (s : Store) (h : o.items ≠ []) :
    create_order o s =
      (.ok ⟨s.next_id, ⟨o.items, pyRound2 (orderSubtotal o.items)⟩⟩,
        { s with
          orders := s.orders ++ [⟨s.next_id, ⟨o.items, pyRound2 (orderSubtotal o.items)⟩⟩],
          next_id := s.next_id + 1 }) := by
  simp [create_order, create_document_order, h]

/-- Membership in a store read, provided the matching records fit the limit. -/
theorem mem_get_documents {α : Type} (docs : List α) (pred : α → Bool) (n : ℕ)
    (a : α) (ha : a ∈ docs.filter pred) (hlen : (docs.filter pred).length ≤ n) :
    a ∈ get_documents docs pred n := by
  rw [get_documents, List.take_of_length_le hlen]
  exact ha

/-- C1: for every order whose items list is non-empty, create_order stores and
returns an order whose subtotal equals round of the sum over its items of
price times quantity to 2 decimal places, regardless of the subtotal value
submitted by the client. -/
theorem c1_subtotal_recomputed (o : Order) (s : Store) (h : o.items ≠ []) :
    subtotalOfResult (create_order o s).1 = some (pyRound2 (orderSubtotal o.items)) ∧
    lastOrderSubtotal (create_order o s).2 = some (pyRound2 (orderSubtotal o.items)) ∧
    ∀ q : ℚ, create_order { o with subtotal := q } s = create_order o s := by
  rw [create_order_of_items_ne_nil o s h]
  refine ⟨rfl, ?_, ?_⟩
  · simp [lastOrderSubtotal]
  · intro q
    rw [create_order_of_items_ne_nil { o with subtotal := q } s h]

/-- Witness for C1 at a concrete order with a wrong submitted subtotal. -/
theorem c1_witness :
    subtotalOfResult (create_order w1order store0).1 =
      some (pyRound2 (orderSubtotal w1order.items)) ∧
    lastOrderSubtotal (create_order w1order store0).2 =
      some (pyRound2 (orderSubtotal w1order.items)) ∧
    create_order { w1order with subtotal := 77 } store0 = create_order w1order store0 :=
  ⟨(c1_subtotal_recomputed w1order store0 (by decide)).1,
   (c1_subtotal_recomputed w1order store0 (by decide)).2.1,
   (c1_subtotal_recomputed w1order store0 (by decide)).2.2 77⟩

/-- C2: create_order raises the client error with the fixed message exactly
when the submitted items list is empty, and in that case no document is
stored (the store is returned unchanged). Every other handler in the file is
a total function of the request and the store, so this is the only
application-level error raised. -/
theorem c2_empty_items_error (o : Order) (s : Store) :
    (∀ e, (create_order o s).1 = .error e →
      o.items = [] ∧ e = "Order must contain at least one item") ∧
    (o.items = [] →
      (create_order o s).1 = .error "Order must contain at least one item" ∧
      (create_order o s).2 = s) := by
  by_cases h : o.items = [] <;> simp [create_order, h]

/-- Witness for C2 at the empty order. -/
theorem c2_witness :
    (create_order ⟨[], 5⟩ store0).1 = .error "Order must contain at least one item" ∧
    (create_order ⟨[], 5⟩ store0).2 = store0 :=
  (c2_empty_items_error ⟨[], 5⟩ store0).2 rfl

/-- C5: on the spec's example order with items 2.99 × 2 and 3.49 × 1, the
subtotal computed and stored by create_order is exactly 9.47. -/
theorem c5_example_subtotal :
    (create_order c5order store0).1 = .ok ⟨0, ⟨c5order.items, 9.47⟩⟩ ∧
    (create_order c5order store0).2.orders = [⟨0, ⟨c5order.items, 9.47⟩⟩] := by
  constructor <;>
    · simp [create_order, create_document_order, c5order, store0]
      norm_num [pyRound2, roundHalfEven, orderSubtotal]

/-- C6: create_product inserts the submitted record with all fields unchanged
and returns the stored document carrying the store-assigned id; the order
collection is untouched. -/
theorem c6_insert_verbatim (p : Product) (s : Store) :
    (create_product p s).1.data = p ∧
    (create_product p s).1.id = s.next_id ∧
    (create_product p s).2.products = s.products ++ [(create_product p s).1] ∧
    (create_product p s).2.orders = s.orders :=
  ⟨rfl, rfl, rfl, rfl⟩

/-- C8: the document stored by create_order preserves the submitted items
list exactly and in order; only the subtotal field is overwritten. -/
theorem c8_only_subtotal_overwritten (o : Order) (s : Store) (h : o.items ≠ []) :
    (create_order o s).1 =
      .ok ⟨s.next_id, ⟨o.items, pyRound2 (orderSubtotal o.items)⟩⟩ ∧
    (create_order o s).2.orders =
      s.orders ++ [⟨s.next_id, ⟨o.items, pyRound2 (orderSubtotal o.items)⟩⟩] := by
  rw [create_order_of_items_ne_nil o s h]
  exact ⟨rfl, rfl⟩

/-- Witness for C8 at a concrete order. -/
theorem c8_witness :
    (create_order w8order store0).1 =
      .ok ⟨0, ⟨w8order.items, pyRound2 (orderSubtotal w8order.items)⟩⟩ ∧
    (create_order w8order store0).2.orders =
      [⟨0, ⟨w8order.items, pyRound2 (orderSubtotal w8order.items)⟩⟩] :=
  ⟨(c8_only_subtotal_overwritten w8order store0 (by decide)).1,
   (c8_only_subtotal_overwritten w8order store0 (by decide)).2⟩

/-- C9: a request with an empty category string is handled exactly like a
request with no category parameter: the filter is dropped. -/
theorem c9_empty_category_no_filter (s : Store) :
    list_products (some "") s = list_products none s := rfl

/-- C3: on an empty product collection seed_products inserts exactly the four
fixed records and reports 4; a further call on the seeded store, and any call
on a non-empty collection, inserts nothing and reports 0. -/
theorem c3_seed_idempotent (s : Store) :
    (s.products = [] →
      (seed_products s).1 = ⟨4, none⟩ ∧
      (seed_products s).2.products.map Stored.data = chips ∧
      (seed_products (seed_products s).2).1 = ⟨0, some "Products already seeded"⟩) ∧
    (s.products ≠ [] →
      seed_products s = (⟨0, some "Products already seeded"⟩, s)) := by
  constructor
  · intro h
    refine ⟨?_, ?_, ?_⟩ <;>
      simp [seed_products, get_documents, chips, create_document_product, h]
  · intro h
    have hne : (s.products.filter fun _ => true).take 1 ≠ [] := by
      cases hp : s.products with
      | nil => exact absurd hp h
      | cons a l => simp [hp]
    simp [seed_products, get_documents, hne, h]

/-- Witness for C3 at the empty store and at a one-product store. -/
theorem c3_witness :
    ((seed_products store0).1 = ⟨4, none⟩ ∧
      (seed_products store0).2.products.map Stored.data = chips ∧
      (seed_products (seed_products store0).2).1 =
        ⟨0, some "Products already seeded"⟩) ∧
    seed_products store1 = (⟨0, some "Products already seeded"⟩, store1) :=
  ⟨(c3_seed_idempotent store0).1 rfl, (c3_seed_idempotent store1).2 (by decide)⟩

/-- C4: with a non-empty category string every returned record has exactly
that category, and every call returns at most 100 records. -/
theorem c4_category_filter (s : Store) (c : String) :
    (c ≠ "" → ∀ d ∈ list_products (some c) s, d.data.category = c) ∧
    (∀ q, (list_products q s).length ≤ 100) := by
  constructor
  · intro h d hd
    simp only [list_products, get_documents, h, if_neg h] at hd
    have h2 := List.take_subset 100 _ hd
    rw [List.mem_filter] at h2
    simpa [matchesCategory] using h2.2
  · intro q
    simp only [list_products, get_documents, List.length_take]
    exact min_le_left _ _

/-- Witness for C4 at a one-product store and the category of its product. -/
theorem c4_witness :
    (⟨0, tinyProduct⟩ : Stored Product).data.category = "potato" ∧
    (list_products none store1).length ≤ 100 :=
  ⟨(c4_category_filter store1 "potato").1 (by decide) ⟨0, tinyProduct⟩ (by decide),
   (c4_category_filter store1 "potato").2 none⟩

/-- C7 fails as stated: on a store already holding 100 products, the record
inserted by create_product is beyond the 100-record read limit, so neither
the unfiltered nor the category-filtered listing contains it. -/
theorem c7_counterexample :
    (create_product tinyProduct bigStore).1 ∉
      list_products none (create_product tinyProduct bigStore).2 ∧
    (create_product tinyProduct bigStore).1 ∉
      list_products (some tinyProduct.category)
        (create_product tinyProduct bigStore).2 := by
  decide

/-- C7 amended: after create_product succeeds, the listing contains the new
record provided fewer than 100 already-stored records match the query (for
the category-filtered call with a non-empty category, fewer than 100 records
of that category; an empty category string disables the filter). -/
theorem c7_create_then_list (p : Product) (s : Store) :
    (s.products.length < 100 →
      (create_product p s).1 ∈ list_products none (create_product p s).2) ∧
    (p.category ≠ "" →
      (s.products.filter (matchesCategory (some p.category))).length < 100 →
      (create_product p s).1 ∈
        list_products (some p.category) (create_product p s).2) ∧
    (p.category = "" → s.products.length < 100 →
      (create_product p s).1 ∈
        list_products (some p.category) (create_product p s).2) := by
  have hnone : s.products.length < 100 →
      (create_product p s).1 ∈ list_products none (create_product p s).2 := by
    intro h
    show (⟨s.next_id, p⟩ : Stored Product) ∈
      get_documents (s.products ++ [⟨s.next_id, p⟩]) (matchesCategory none) 100
    refine mem_get_documents (s.products ++ [⟨s.next_id, p⟩])
      (matchesCategory none) 100 ⟨s.next_id, p⟩ ?_ ?_
    · rw [List.mem_filter]
      exact ⟨by simp, rfl⟩
    · have hlf := List.length_filter_le (matchesCategory none)
        (s.products ++ [(⟨s.next_id, p⟩ : Stored Product)])
      simp only [List.length_append, List.length_singleton] at hlf
      omega
  refine ⟨hnone, ?_, ?_⟩
  · intro hc h
    have hq : list_products (some p.category) (create_product p s).2 =
        get_documents (s.products ++ [⟨s.next_id, p⟩])
          (matchesCategory (some p.category)) 100 := by
      simp only [list_products, create_product, create_document_product, if_neg hc]
    rw [hq]
    refine mem_get_documents (s.products ++ [⟨s.next_id, p⟩])
      (matchesCategory (some p.category)) 100 ⟨s.next_id, p⟩ ?_ ?_
    · rw [List.mem_filter]
      refine ⟨by simp, ?_⟩
      simp [matchesCategory]
    · rw [List.filter_append]
      have hone : ([(⟨s.next_id, p⟩ : Stored Product)].filter
          (matchesCategory (some p.category))).length ≤ 1 :=
        le_trans (List.length_filter_le _ _) (by simp)
      simp only [List.length_append]
      omega
  · intro hc h
    have he : list_products (some p.category) (create_product p s).2 =
        list_products none (create_product p s).2 := by
      rw [hc]; exact rfl
    rw [he]
    exact hnone h

/-- Witness for C7 (amended) at the empty store. -/
theorem c7_witness :
    (create_product tinyProduct store0).1 ∈
      list_products none (create_product tinyProduct store0).2 ∧
    (create_product tinyProduct store0).1 ∈
      list_products (some tinyProduct.category)
        (create_product tinyProduct store0).2 :=
  ⟨(c7_create_then_list tinyProduct store0).1 (by decide),
   (c7_create_then_list tinyProduct store0).2.1 (by decide) (by decide)⟩

/-- C10: test_database always returns a diagnostic object (it is a total
function of the store handle's behaviour); it reports at most ten collection
names, and when listing the collection names raises, the response embeds the
exception message truncated to at most 50 characters instead of propagating. -/
theorem c10_diagnostic_total (db : Option DbHandle) (u v : Bool) :
    (test_database db u v).collections.length ≤ 10 ∧
    (∀ d e, db = some d → d.collectionNames = .error e →
      (test_database db u v).database =
        "⚠️  Connected but Error: " ++ pySlice 50 e ∧
      (pySlice 50 e).length ≤ 50) := by
  constructor
  · cases db with
    | none => simp [test_database]
    | some d =>
      cases hd : d.collectionNames with
      | ok cs =>
        simp only [test_database, hd, List.length_take]
        exact min_le_left _ _
      | error e => simp [test_database, hd]
  · rintro d e rfl he
    refine ⟨by simp [test_database, he], ?_⟩
    show (e.data.take 50).length ≤ 50
    rw [List.length_take]
    exact min_le_left _ _

/-- Witness for C10 at a handle whose collection listing raises. -/
theorem c10_witness :
    (test_database (some ⟨some "appdb", .error "boom"⟩) true false).collections.length ≤ 10 ∧
    ((test_database (some ⟨some "appdb", .error "boom"⟩) true false).database =
        "⚠️  Connected but Error: " ++ pySlice 50 "boom" ∧
      (pySlice 50 "boom").length ≤ 50) :=
  ⟨(c10_diagnostic_total (some ⟨some "appdb", .error "boom"⟩) true false).1,
   (c10_diagnostic_total (some ⟨some "appdb", .error "boom"⟩) true false).2
     ⟨some "appdb", .error "boom"⟩ "boom" rfl rfl⟩

end ChipsApi
